import Mathlib

/-!
Verification development for the SnowRisk / SnowCOF snow-operations risk
scoring pipeline (SnowRisk.py, SnowCOF.py).

The scripts classify road segments through ordered SQL rule tables
(`SelectLayerByAttribute` + `CalculateField` per table entry), compute a
sinuosity geometry metric, aggregate sub-scores through weighted formulas
into COF / POF / RISK composites rounded with Python 3's `round`, and
assign ranks by walking an `ORDER BY MEAN_COF DESC` cursor.

The embedding below models:
  * segments as records of the attributes the rule tables read
    (SQL NULL is modelled by `Option` where the scripts can see a NULL);
  * a rule table as an ordered list of (predicate, score) pairs, and the
    scripts' per-entry select-and-overwrite loop as a fold (`applyTable`);
  * Python 3's banker's rounding on exact rationals (`pyRound`);
  * the aggregation formula strings exactly as the f-strings build them
    (in particular `cof_safety`, where the interpolation of
    `safety_factor + "/5"` divides only the last summand);
  * the geometry expressions over `ℝ` with `Real.sqrt`;
  * the orchestration of `SnowRisk()` as a list of state transformers on
    the persisted geodatabase, so that a run that stops after `k` steps is
    the fold of the first `k` transformers.
-/

namespace SnowVerify

/-- Python 3's built-in `round` to an integer on an exact rational:
round half to even (banker's rounding). The scripts call this as
`round(x*10)/10`, `round(x, 2)` and `round(x/6, 0)`. -/
def pyRound (q : ℚ) : ℤ :=
  if Int.fract q < 1/2 then ⌊q⌋
  else if 1/2 < Int.fract q then ⌊q⌋ + 1
  else if ⌊q⌋ % 2 = 0 then ⌊q⌋ else ⌊q⌋ + 1

/-- Modelled from the spec: round half away from zero, the rounding
function the spec asserts the pipeline uses. Kept separate from
`pyRound` so the two can be compared. -/
def specRoundHalfAway (q : ℚ) : ℤ :=
  if 0 ≤ q then ⌊q + 1/2⌋ else ⌈q - 1/2⌉

/-- A road segment record, with the attributes read by the rule tables of
`SnowRisk.py` and `SnowCOF.py`. Attributes that the scripts' predicates
can observe as SQL NULL (`SINUOSITY` before it is calculated, `LN_TOTAL`
via `LN_TOTAL is NULL`, `SNOW_DIST` via `SNOW_DIST IS NOT NULL`) are
`Option`-typed; the remaining attributes are modelled at non-NULL values
of their declared types. `numb1` is the `NUMB1` double used by
`SnowCOF.py`'s crash table; `snowCrash` is the `SNOW_CRASH` short that
`SnowRisk.py` maps from `NUMB1` on copy. -/
structure Seg where
  snowFid : String
  snowDist : Option String
  smtdDay : String
  smtdNight : String
  fc : String
  snowSlope : ℚ
  aadt : ℚ
  snowTrbl : String
  snowCrash : ℤ
  numb1 : ℚ
  surfTyp : String
  sinuosity : Option ℚ
  lnTotal : Option ℤ
  deriving DecidableEq

/-- SQL `SINUOSITY <= c` under three-valued logic: NULL compares false. -/
def sinLe (s : Seg) (c : ℚ) : Bool :=
  match s.sinuosity with
  | some v => decide (v ≤ c)
  | none => false

/-- SQL `SINUOSITY > c`: NULL compares false. -/
def sinGt (s : Seg) (c : ℚ) : Bool :=
  match s.sinuosity with
  | some v => decide (c < v)
  | none => false

/-- SQL `LN_TOTAL <= c`: NULL compares false. -/
def lnLe (s : Seg) (c : ℤ) : Bool :=
  match s.lnTotal with
  | some v => decide (v ≤ c)
  | none => false

/-- SQL `LN_TOTAL = c`: NULL compares false. -/
def lnEq (s : Seg) (c : ℤ) : Bool :=
  match s.lnTotal with
  | some v => decide (v = c)
  | none => false

/-- SQL `LN_TOTAL >= c`: NULL compares false. -/
def lnGe (s : Seg) (c : ℤ) : Bool :=
  match s.lnTotal with
  | some v => decide (c ≤ v)
  | none => false

/-- SQL `LN_TOTAL is NULL`. -/
def lnNull (s : Seg) : Bool := s.lnTotal.isNone

/-- One entry of a rule table: a where-clause predicate paired with the
score that `CalculateField` writes into the rows the predicate selects. -/
abbrev Rule := (Seg → Bool) × ℤ

/-- The scripts' scoring loop (`RiskProcessor` with risk type
`"consequence"`, and the inline `for` loops of `SnowCOF.py`): for each
table entry in order, select the rows satisfying the predicate and
overwrite the score field there. For one segment this is a fold over the
table starting from the field's previous contents `prev` (NULL for a
freshly added field): each matching entry overwrites the accumulator. -/
def applyTable (t : List Rule) (prev : Option ℤ) (s : Seg) : Option ℤ :=
  t.foldl (fun acc r => if r.1 s then some r.2 else acc) prev

/-- Modelled from the spec: first-match-wins evaluation, the semantics the
spec asserts for rule tables — the score paired with the first satisfied
predicate. Kept separate from `applyTable` so the two can be compared. -/
def specFirstMatch (t : List Rule) (s : Seg) : Option ℤ :=
  (t.find? (fun r => r.1 s)).map (fun r => r.2)

namespace SnowRisk

/-- SMTD bus route table of `SnowRisk.py` (field `COF_SMTD`). -/
def routes : List Rule :=
  [(fun s => s.snowFid == "NORTE", 0),
   (fun s => s.snowFid != "NORTE" && (s.smtdDay == "0" || s.smtdNight == "0"), 1),
   (fun s => s.snowFid != "NORTE" && (s.smtdDay == "1" || s.smtdNight == "1"), 3),
   (fun s => s.snowFid != "NORTE" && (s.smtdDay == "2" || s.smtdNight == "2"), 4)]

/-- Functional classification table of `SnowRisk.py` (field `COF_FC`). -/
def classifications : List Rule :=
  [(fun s => s.snowFid == "NORTE", 0),
   (fun s => s.snowFid != "NORTE" && s.fc == "7", 1),
   (fun s => s.snowFid != "NORTE" && s.fc == "6", 2),
   (fun s => s.snowFid != "NORTE" && s.fc == "5", 3),
   (fun s => s.snowFid != "NORTE" && (s.fc == "4" || s.fc == "3"), 4)]

/-- Slope table of `SnowRisk.py` (field `COF_SLOPE`). -/
def slopes : List Rule :=
  [(fun s => s.snowFid == "NORTE", 0),
   (fun s => s.snowFid != "NORTE" && decide (s.snowSlope ≤ 1.999), 1),
   (fun s => s.snowFid != "NORTE" && (decide (2 ≤ s.snowSlope) && decide (s.snowSlope ≤ 2.999)), 2),
   (fun s => s.snowFid != "NORTE" && (decide (3 ≤ s.snowSlope) && decide (s.snowSlope ≤ 3.999)), 3),
   (fun s => s.snowFid != "NORTE" && decide (4 ≤ s.snowSlope), 4)]

/-- AADT table of `SnowRisk.py` (field `COF_AADT`). -/
def averages : List Rule :=
  [(fun s => s.snowFid == "NORTE", 0),
   (fun s => s.snowFid != "NORTE" && (decide (0 ≤ s.aadt) && decide (s.aadt ≤ 750)), 1),
   (fun s => s.snowFid != "NORTE" && (decide (751 ≤ s.aadt) && decide (s.aadt ≤ 1400)), 2),
   (fun s => s.snowFid != "NORTE" && (decide (1401 ≤ s.aadt) && decide (s.aadt ≤ 3100)), 3),
   (fun s => s.snowFid != "NORTE" && decide (3100 < s.aadt), 4)]

/-- Trouble spot justification table of `SnowRisk.py` (field `COF_TRBL`). -/
def troubles : List Rule :=
  [(fun s => s.snowFid == "NORTE", 0),
   (fun s => s.snowFid != "NORTE" && s.snowTrbl == "12", 1),
   (fun s => s.snowFid != "NORTE" && (s.snowTrbl == "10" || s.snowTrbl == "11"), 2),
   (fun s => s.snowFid != "NORTE" && (s.snowTrbl == "07" || s.snowTrbl == "13"), 3),
   (fun s => s.snowFid != "NORTE" &&
      (s.snowTrbl == "01" || s.snowTrbl == "02" || s.snowTrbl == "03" ||
       s.snowTrbl == "04" || s.snowTrbl == "06"), 4)]

/-- Crash statistics table of `SnowRisk.py` (field `COF_CRASH`). -/
def crashes : List Rule :=
  [(fun s => s.snowFid == "NORTE", 0),
   (fun s => s.snowFid != "NORTE" && decide (s.snowCrash = 0), 1),
   (fun s => s.snowFid != "NORTE" && decide (s.snowCrash = 1), 2),
   (fun s => s.snowFid != "NORTE" && decide (s.snowCrash = 2), 3),
   (fun s => s.snowFid != "NORTE" && decide (3 ≤ s.snowCrash), 4)]

/-- Road material table of `SnowRisk.py` (field `COF_SURF`). -/
def materials : List Rule :=
  [(fun s => s.snowFid == "NORTE", 0),
   (fun s => s.snowFid != "NORTE" &&
      (["501", "510", "520", "525", "530", "540", "550", "560", "600",
        "610", "615", "620", "625", "630", "640", "650"].contains s.surfTyp), 1),
   (fun s => s.snowFid != "NORTE" && (s.surfTyp == "300" || s.surfTyp == "500"), 2),
   (fun s => s.snowFid != "NORTE" && s.surfTyp.startsWith "7", 3),
   (fun s => s.snowFid != "NORTE" && s.surfTyp.startsWith "8", 4)]

/-- Sinuosity table of `SnowRisk.py` (field `COF_SINE`). Note: no entry
guards on `SNOW_FID`, and the highest bucket stops at `SINUOSITY <= 29`. -/
def curves : List Rule :=
  [(fun s => sinLe s 1.02 && sinGt s 0.98, 1),
   (fun s => sinLe s 1.05 && sinGt s 1.02, 2),
   (fun s => sinLe s 1.1 && sinGt s 1.05, 3),
   (fun s => sinLe s 29 && sinGt s 1.1, 4)]

/-- Lane count table of `SnowRisk.py` (field `POF_LANES`); processed with
risk type `"consequence"`, hence with no `SNOW_FID` subset filter. -/
def lanes : List Rule :=
  [(fun s => lnLe s 2 || lnNull s, 1),
   (fun s => lnEq s 3, 2),
   (fun s => lnEq s 4, 3),
   (fun s => lnGe s 5, 4)]

end SnowRisk

namespace SnowCOF

/-- SMTD bus route table of `SnowCOF.py` (field `COF_SMTD`). -/
def routes : List Rule :=
  [(fun s => s.snowFid == "NORTE" || (s.smtdDay == "0" && s.smtdNight == "0"), 0),
   (fun s => s.snowFid != "NORTE" &&
      ((s.smtdDay == "0" && s.smtdNight == "1") || (s.smtdDay == "1" || s.smtdNight == "0")), 2),
   (fun s => s.snowFid == "NORTE" || (s.smtdDay == "1" && s.smtdNight == "1"), 3),
   (fun s => s.snowFid != "NORTE" && s.smtdDay == "2", 4)]

/-- Slope table of `SnowCOF.py` (field `COF_SLOPE`): the first bucket is
`SNOW_SLOPE < 1.999`, strict, unlike `SnowRisk.py`'s `<= 1.999`. -/
def slopes : List Rule :=
  [(fun s => s.snowFid == "NORTE", 0),
   (fun s => s.snowFid != "NORTE" && decide (s.snowSlope < 1.999), 1),
   (fun s => s.snowFid != "NORTE" && (decide (2 ≤ s.snowSlope) && decide (s.snowSlope ≤ 2.999)), 2),
   (fun s => s.snowFid != "NORTE" && (decide (3 ≤ s.snowSlope) && decide (s.snowSlope ≤ 3.999)), 3),
   (fun s => s.snowFid != "NORTE" && decide (4 ≤ s.snowSlope), 4)]

/-- AADT table of `SnowCOF.py` (field `COF_AADT`), identical to
`SnowRisk.py`'s. -/
def averages : List Rule :=
  [(fun s => s.snowFid == "NORTE", 0),
   (fun s => s.snowFid != "NORTE" && (decide (0 ≤ s.aadt) && decide (s.aadt ≤ 750)), 1),
   (fun s => s.snowFid != "NORTE" && (decide (751 ≤ s.aadt) && decide (s.aadt ≤ 1400)), 2),
   (fun s => s.snowFid != "NORTE" && (decide (1401 ≤ s.aadt) && decide (s.aadt ≤ 3100)), 3),
   (fun s => s.snowFid != "NORTE" && decide (3100 < s.aadt), 4)]

/-- Crash table of `SnowCOF.py` (field `COF_CRASH`), over the `NUMB1`
double: the entries test `NUMB1 = 1` through `NUMB1 = 4` only. -/
def crashes : List Rule :=
  [(fun s => s.snowFid == "NORTE", 0),
   (fun s => s.snowFid != "NORTE" && decide (s.numb1 = 1), 1),
   (fun s => s.snowFid != "NORTE" && decide (s.numb1 = 2), 2),
   (fun s => s.snowFid != "NORTE" && decide (s.numb1 = 3), 3),
   (fun s => s.snowFid != "NORTE" && decide (s.numb1 = 4), 4)]

end SnowCOF

namespace SnowRisk

/-- The eight COF sub-score fields of `SnowRisk.py`, as integers (the
fields are Short; values written by the tables above). -/
structure Scores where
  cofSmtd : ℤ
  cofFc : ℤ
  cofSlope : ℤ
  cofAadt : ℤ
  cofTrbl : ℤ
  cofCrash : ℤ
  cofSurf : ℤ
  cofSine : ℤ
  deriving DecidableEq

/-- The expression `safety_factor = "!COF_FC!+!COF_SLOPE!+!COF_AADT!+!COF_TRBL!+!COF_CRASH!"`. -/
def safety_factor (sc : Scores) : ℚ :=
  (sc.cofFc : ℚ) + sc.cofSlope + sc.cofAadt + sc.cofTrbl + sc.cofCrash

/-- The expression `social_factor = "!COF_SMTD!+!COF_FC!+!COF_SLOPE!+!COF_AADT!+!COF_TRBL!+!COF_CRASH!+!COF_SURF!+!COF_SINE!"`. -/
def social_factor (sc : Scores) : ℚ :=
  (sc.cofSmtd : ℚ) + sc.cofFc + sc.cofSlope + sc.cofAadt + sc.cofTrbl +
    sc.cofCrash + sc.cofSurf + sc.cofSine

/-- The assignment `safety_factor_average = f"{safety_factor}/5"` appends
`/5` to the sum *without parentheses*, so Python's precedence divides only
the last summand `!COF_CRASH!` by 5. -/
def safety_factor_average (sc : Scores) : ℚ :=
  (sc.cofFc : ℚ) + sc.cofSlope + sc.cofAadt + sc.cofTrbl + (sc.cofCrash : ℚ) / 5

/-- The unrounded COF expression of `total_cof_scores`:
`((((safety_factor)/20)*.75) + (((social_factor)/32)*.25))*4`. -/
def cof (sc : Scores) : ℚ :=
  ((safety_factor sc / 20) * 0.75 + (social_factor sc / 32) * 0.25) * 4

/-- The unrounded COF_SAFETY expression of `total_cof_scores`:
`((safety_factor_average)/20)*4` with `safety_factor_average` as built by
the f-string above. -/
def cof_safety (sc : Scores) : ℚ :=
  (safety_factor_average sc / 20) * 4

/-- The stored COF value: `(round(cof*10))/10`. -/
def cofStored (sc : Scores) : ℚ := (pyRound (cof sc * 10) : ℚ) / 10

/-- The stored COF_SAFETY value: `(round(cof_safety*10))/10`. -/
def cofSafetyStored (sc : Scores) : ℚ := (pyRound (cof_safety sc * 10) : ℚ) / 10

/-- The three POF sub-score fields of `SnowRisk.py`. -/
structure PScores where
  pofSalt : ℤ
  pofFleet : ℤ
  pofLanes : ℤ
  deriving DecidableEq

/-- The expression `mechanical_factor = "!POF_SALT!+!POF_FLEET!"`. -/
def mechanical_factor (p : PScores) : ℚ := (p.pofSalt : ℚ) + p.pofFleet

/-- The expression `weather_factor = "!POF_SALT!+!POF_LANES!"`. -/
def weather_factor (p : PScores) : ℚ := (p.pofSalt : ℚ) + p.pofLanes

/-- The unrounded POF expression of `total_pof_scores`:
`((((mechanical_factor)/8)*.50) + (((weather_factor)/8)*.50))*4`. -/
def pof (p : PScores) : ℚ :=
  ((mechanical_factor p / 8) * 0.5 + (weather_factor p / 8) * 0.5) * 4

/-- The stored POF value: `(round(pof*10)/10)`. -/
def pofStored (p : PScores) : ℚ := (pyRound (pof p * 10) : ℚ) / 10

/-- The stored RISK value: `(round((!COF!*!POF!)*10)/10)`, from the
already-stored COF and POF fields. -/
def riskStored (c p : ℚ) : ℚ := (pyRound (c * p * 10) : ℚ) / 10

/-- The COF sub-score fields as the feature class actually holds them:
nullable (`AddFields` creates them NULL, and a table that matches no rule
leaves the previous contents in place). -/
structure ScoresOpt where
  cofSmtd : Option ℤ
  cofFc : Option ℤ
  cofSlope : Option ℤ
  cofAadt : Option ℤ
  cofTrbl : Option ℤ
  cofCrash : Option ℤ
  cofSurf : Option ℤ
  cofSine : Option ℤ
  deriving DecidableEq

/-- The COF `CalculateField` expression evaluated over nullable fields:
in `PYTHON3` a NULL field reads as `None`, and `None` in the arithmetic
raises, so the expression only produces a value when every referenced
sub-score is present. -/
def cofOpt (sc : ScoresOpt) : Option ℚ :=
  match sc.cofSmtd, sc.cofFc, sc.cofSlope, sc.cofAadt, sc.cofTrbl,
      sc.cofCrash, sc.cofSurf, sc.cofSine with
  | some a, some b, some c, some d, some e, some f, some g, some h =>
      some (cofStored ⟨a, b, c, d, e, f, g, h⟩)
  | _, _, _, _, _, _, _, _ => none

/-- The POF `CalculateFields` expression evaluated over nullable fields
(`POF_SALT` and `POF_FLEET` stay NULL on rows the travel-time layers never
selected). -/
def pofOpt (salt fleet lanesScore : Option ℤ) : Option ℚ :=
  match salt, fleet, lanesScore with
  | some a, some b, some c => some (pofStored ⟨a, b, c⟩)
  | _, _, _ => none

/-- Classify one segment through all eight `SnowRisk.py` COF tables,
each field starting from NULL. -/
def classifySeg (s : Seg) : ScoresOpt :=
  { cofSmtd := applyTable routes none s
    cofFc := applyTable classifications none s
    cofSlope := applyTable slopes none s
    cofAadt := applyTable averages none s
    cofTrbl := applyTable troubles none s
    cofCrash := applyTable crashes none s
    cofSurf := applyTable materials none s
    cofSine := applyTable curves none s }

end SnowRisk

namespace SnowCOF

/-- The total COF of `SnowCOF.py`:
`!COF_SMTD!+!COF_FC!+2*!COF_SLOPE!+!COF_AADT!+!COF_TRBL!+!COF_CRASH!`. -/
def COF (smtd fc slope aadt trbl crash : ℤ) : ℤ :=
  smtd + fc + 2 * slope + aadt + trbl + crash

/-- The average COF of `SnowCOF.py`: `round(!COF!/6,0)` — Python 3
`round`, half to even. -/
def COF_AVG (c : ℤ) : ℚ := (pyRound ((c : ℚ) / 6) : ℚ)

end SnowCOF

/-! ## Geometry: the sinuosity expression of `SnowRisk.py`

`sinuosity()` runs one `CalculateField` with the `loop_distance`
expression on every row with `Shape_Length > 0`:

`!Shape.length! / (sqrt((firstX - midX)^2 + (firstY - midY)^2)
                 + sqrt((midX - lastX)^2 + (midY - lastY)^2))`

where `mid` is `!Shape!.positionAlongLine(0.5, True).firstpoint`, the
point at 50% of the shape's length. A second pass writes `30` into rows
where `SINUOSITY IS NULL AND Shape_Length > 0` (the rows whose expression
raised, e.g. on a zero denominator). Shapes are modelled as ordered point
lists over `ℝ`. -/

/-- Euclidean distance between two points, as the expression's
`math.sqrt((x1-x2)**2 + (y1-y2)**2)`. -/
noncomputable def ptDist (p q : ℝ × ℝ) : ℝ :=
  Real.sqrt ((p.1 - q.1) ^ 2 + (p.2 - q.2) ^ 2)

/-- The token `!Shape.length!`: the polyline's total length. -/
noncomputable def shapeLength : List (ℝ × ℝ) → ℝ
  | p :: q :: rest => ptDist p q + shapeLength (q :: rest)
  | _ => 0

/-- The token `!Shape.firstpoint!`. -/
def firstPoint : List (ℝ × ℝ) → ℝ × ℝ
  | [] => (0, 0)
  | p :: _ => p

/-- The token `!Shape.lastpoint!`. -/
def lastPoint (l : List (ℝ × ℝ)) : ℝ × ℝ := l.getLastD (0, 0)

open Classical in
/-- Walk the polyline to the point at distance `t` along it (the engine's
`positionAlongLine` for a distance within the shape). -/
noncomputable def positionAlong : List (ℝ × ℝ) → ℝ → ℝ × ℝ
  | [], _ => (0, 0)
  | [p], _ => p
  | p :: q :: rest, t =>
      if t ≤ ptDist p q ∧ ptDist p q ≠ 0 then
        (p.1 + t / ptDist p q * (q.1 - p.1), p.2 + t / ptDist p q * (q.2 - p.2))
      else positionAlong (q :: rest) (t - ptDist p q)

/-- The term `!Shape!.positionAlongLine(0.5, True).firstpoint`: the point at 50%
of the shape's length. -/
noncomputable def midPoint (path : List (ℝ × ℝ)) : ℝ × ℝ :=
  positionAlong path (shapeLength path / 2)

/-- The denominator of the `loop_distance` expression: straight-line
distance from the first point to the 50%-length point plus straight-line
distance from the 50%-length point to the last point. -/
noncomputable def loopDenom (path : List (ℝ × ℝ)) : ℝ :=
  ptDist (firstPoint path) (midPoint path) +
    ptDist (midPoint path) (lastPoint path)

open Classical in
/-- One row's result of the first `CalculateField` pass: the
`loop_distance` quotient, or no value when the expression raises
(`ZeroDivisionError` on a zero denominator leaves the field NULL). -/
noncomputable def calcSinuosity (path : List (ℝ × ℝ)) : Option ℝ :=
  if loopDenom path = 0 then none else some (shapeLength path / loopDenom path)

open Classical in
/-- The `SINUOSITY` field after both passes of `sinuosity()`: rows with
`Shape_Length > 0` get the `loop_distance` value, with NULLs replaced by
the sentinel `30`; zero-length rows are selected by neither pass and stay
NULL. -/
noncomputable def sinuosityField (path : List (ℝ × ℝ)) : Option ℝ :=
  if 0 < shapeLength path then
    match calcSinuosity path with
    | some v => some v
    | none => some 30
  else none

/-- Modelled from the spec: the primary sinuosity formula the spec
asserts — total path length divided by the straight-line distance between
the first and last point. Kept separate from `sinuosityField` so the two
can be compared. -/
noncomputable def specPrimarySinuosity (path : List (ℝ × ℝ)) : ℝ :=
  shapeLength path / ptDist (firstPoint path) (lastPoint path)

/-! ## Ranking: `risk_rank()` of `SnowRisk.py`

`ranking(table, field)` opens an `UpdateCursor` with
`sql_clause = (None, "ORDER BY MEAN_COF DESC")` and writes `1, 2, 3, …`
into successive rows of the cursor. The repository only requires the
cursor to return the rows sorted by `MEAN_COF` descending; the order of
rows with equal `MEAN_COF` is whatever the engine yields. -/

/-- A dissolved `SnowRank` row: its `MEAN_COF` metric and its position in
the table (input order). -/
structure RankRow where
  meanCof : ℚ
  idx : ℕ
  deriving DecidableEq

/-- The function `ranking(table, field)`: walk the cursor's rows in order, assigning
rank `1` to the first row and incrementing by one per row. -/
def ranking (cursor : List RankRow) : List (RankRow × ℕ) :=
  cursor.enum.map (fun p => (p.2, p.1 + 1))

/-- The orders the engine may return for `ORDER BY MEAN_COF DESC`: any
permutation of the table's rows that is sorted by `MEAN_COF` descending.
Tie order among equal `MEAN_COF` values is unconstrained. -/
def cursorFor (input cursor : List RankRow) : Prop :=
  cursor.Perm input ∧ cursor.Pairwise (fun a b => b.meanCof ≤ a.meanCof)

/-- Modelled from the spec: a rank assignment breaks ties by stable input
order — among rows with equal metric, the row earlier in the input gets
the smaller rank. -/
def specStableTies (out : List (RankRow × ℕ)) : Prop :=
  ∀ a b ra rb, (a, ra) ∈ out → (b, rb) ∈ out →
    a.meanCof = b.meanCof → a.idx < b.idx → ra < rb

/-! ## Orchestration: the `SnowRisk()` run

`SnowRisk()` executes `initialize(); consequence(); probability();
risk_minor(); risk_rank()` inside one `try` block whose handlers only
log. `arcpy.env.overwriteOutput = True` and every tool writes directly to
the persisted feature classes in `SnowRisk.gdb`, so the state after a run
that raised in step `k+1` is the fold of the first `k` steps over the
previous persisted state. Spatial inputs (the salt/fleet travel-time
layers) and the geometry-driven sinuosity field are supplied as external
assignment functions. -/

namespace Pipeline

/-- One persisted `SnowRisk` row: the copied attributes plus the derived
fields the run fills in. -/
structure Row where
  attrs : Seg
  scores : SnowRisk.ScoresOpt
  cofv : Option ℚ
  pofv : Option ℚ
  riskv : Option ℚ
  deriving DecidableEq

/-- The persisted contents of `SnowRisk.gdb`: the `SnowRisk`,
`SnowRiskMinor` and `SnowRank` feature classes (`none` = absent). -/
structure GDB where
  snowRisk : Option (List Row)
  snowRiskMinor : Option (List Row)
  snowRank : Option (List (RankRow × ℕ))
  deriving DecidableEq

/-- A freshly copied row: attributes from the source, every added derived
field NULL (`AddFields` creates them empty; `SINUOSITY` is among them). -/
def freshRow (s : Seg) : Row :=
  { attrs := { s with sinuosity := none }
    scores := ⟨none, none, none, none, none, none, none, none⟩
    cofv := none
    pofv := none
    riskv := none }

/-- Step `initialize()`: `FeatureClassToFeatureClass` copies the source rows
with `SNOW_DIST IS NOT NULL` straight into the persisted `SnowRisk`
feature class (with `overwriteOutput = True`, replacing whatever was
there), then adds the NULL derived fields. -/
def initCopy (src : List Seg) (g : GDB) : GDB :=
  { g with
    snowRisk := some (((src.filter (fun s => s.snowDist.isSome)).map freshRow)) }

/-- Step `consequence()`: compute the sinuosity field (`sinOf` stands for the
geometry pass of `sinuosity()` over the row's shape), classify every
table into its sub-score field, then calculate `COF` on the
`SNOW_FID <> 'NORTE'` selection. -/
def consequenceStep (sinOf : Seg → Option ℚ) (g : GDB) : GDB :=
  { g with
    snowRisk := g.snowRisk.map (List.map (fun r =>
      let a := { r.attrs with sinuosity := sinOf r.attrs }
      let sc := SnowRisk.classifySeg a
      { r with
        attrs := a
        scores := sc
        cofv := if a.snowFid = "NORTE" then r.cofv else SnowRisk.cofOpt sc })) }

/-- Step `probability()`: the salt/fleet travel-time layers assign `POF_SALT`
and `POF_FLEET` on their spatial selections further restricted to
`SNOW_FID <> 'NORTE'` (`saltOf`/`fleetOf` stand for the spatial
containment results); `POF_LANES` is classified with no such filter; then
`POF` and `RISK` are calculated over the whole table (the selection is
cleared first). -/
def probabilityStep (saltOf fleetOf : Seg → Option ℤ) (g : GDB) : GDB :=
  { g with
    snowRisk := g.snowRisk.map (List.map (fun r =>
      let salt := if r.attrs.snowFid = "NORTE" then none else saltOf r.attrs
      let fleet := if r.attrs.snowFid = "NORTE" then none else fleetOf r.attrs
      let p := SnowRisk.pofOpt salt fleet (applyTable SnowRisk.lanes none r.attrs)
      { r with
        pofv := p
        riskv := (match r.cofv, p with
          | some c, some q => some (SnowRisk.riskStored c q)
          | _, _ => none) })) }

/-- The `risk_minor()` COF formula is over minor roads, without AADT and FC:
`((((COF_SLOPE+COF_TRBL+COF_CRASH)/12)*.75) +
(((COF_SMTD+COF_SLOPE+COF_TRBL+COF_CRASH+COF_SURF+COF_SINE)/24)*.25))*4`,
stored as `round(cof_minor, 2)`. -/
def cofMinorOpt (sc : SnowRisk.ScoresOpt) : Option ℚ :=
  match sc.cofSmtd, sc.cofSlope, sc.cofTrbl, sc.cofCrash, sc.cofSurf, sc.cofSine with
  | some a, some c, some e, some f, some g, some h =>
      some ((pyRound (((((c + e + f : ℚ) / 12) * 0.75 +
        ((a + c + e + f + g + h : ℚ) / 24) * 0.25) * 4) * 100) : ℚ) / 100)
  | _, _, _, _, _, _ => none

/-- Step `risk_minor()`: copy the `FC IN ('6','7')` rows into `SnowRiskMinor`
and recalculate `COF` and `RISK` there on the `SNOW_FID <> 'NORTE'`
selection (`RISK = round(COF*POF, 2)`). The dissolve to
`SnowRiskMinor_dissolved` is not modelled. -/
def riskMinorStep (g : GDB) : GDB :=
  { g with
    snowRiskMinor := some (((g.snowRisk.getD []).filter
        (fun r => r.attrs.fc == "6" || r.attrs.fc == "7")).map (fun r =>
      if r.attrs.snowFid = "NORTE" then r else
        let c := cofMinorOpt r.scores
        { r with
          cofv := c
          riskv := (match c, r.pofv with
            | some cv, some pv => some ((pyRound (cv * pv * 100) : ℚ) / 100)
            | _, _ => none) })) }

/-- Insert a row into a list sorted by `meanCof` descending (one engine
realization of `ORDER BY MEAN_COF DESC`). -/
def insertDesc (x : RankRow) : List RankRow → List RankRow
  | [] => [x]
  | y :: ys => if y.meanCof ≤ x.meanCof then x :: y :: ys else y :: insertDesc x ys

/-- Sort rows by `meanCof` descending (one engine realization of
`ORDER BY MEAN_COF DESC`; tie order is the engine's choice). -/
def sortDesc : List RankRow → List RankRow
  | [] => []
  | x :: xs => insertDesc x (sortDesc xs)

/-- Step `risk_rank()`: dissolve `SnowRisk` to `SnowRank` and rank it by
`MEAN_COF` descending (the dissolve grain is abstracted: each row carries
its `COF` as `MEAN_COF`, NULL ordered as `0`). -/
def riskRankStep (g : GDB) : GDB :=
  { g with
    snowRank := some (ranking (sortDesc ((g.snowRisk.getD []).enum.map
      (fun p => ⟨p.2.cofv.getD 0, p.1⟩)))) }

/-- The five steps of `SnowRisk()`'s `try` block, in execution order. -/
def steps (src : List Seg) (sinOf : Seg → Option ℚ)
    (saltOf fleetOf : Seg → Option ℤ) : List (GDB → GDB) :=
  [initCopy src, consequenceStep sinOf, probabilityStep saltOf fleetOf,
   riskMinorStep, riskRankStep]

/-- The persisted state after the first `k` steps have completed: the
state observed when step `k+1` raises (the `except` handlers only log, so
nothing is rolled back), or the full run's result when `k = 5`. -/
def runUpTo (src : List Seg) (sinOf : Seg → Option ℚ)
    (saltOf fleetOf : Seg → Option ℤ) (k : ℕ) (g : GDB) : GDB :=
  ((steps src sinOf saltOf fleetOf).take k).foldl (fun st f => f st) g

end Pipeline

/-! ## Concrete fixtures used by the theorems -/

/-- A plain non-sentinel segment with every attribute in its ordinary
range; theorems perturb individual fields with structure updates. -/
def baseSeg : Seg :=
  { snowFid := "ABC", snowDist := some "D1", smtdDay := "0", smtdNight := "0",
    fc := "7", snowSlope := 1, aadt := 100, snowTrbl := "12", snowCrash := 0,
    numb1 := 0, surfTyp := "501", sinuosity := some 1, lnTotal := some 2 }

/-- Pointwise order on the eight COF sub-scores. -/
def ScoresLe (x y : SnowRisk.Scores) : Prop :=
  x.cofSmtd ≤ y.cofSmtd ∧ x.cofFc ≤ y.cofFc ∧ x.cofSlope ≤ y.cofSlope ∧
    x.cofAadt ≤ y.cofAadt ∧ x.cofTrbl ≤ y.cofTrbl ∧ x.cofCrash ≤ y.cofCrash ∧
    x.cofSurf ≤ y.cofSurf ∧ x.cofSine ≤ y.cofSine

/-- Pointwise order on the three POF sub-scores. -/
def PScoresLe (x y : SnowRisk.PScores) : Prop :=
  x.pofSalt ≤ y.pofSalt ∧ x.pofFleet ≤ y.pofFleet ∧ x.pofLanes ≤ y.pofLanes

/-- All eight COF sub-scores within the ordinal range 0–4. -/
def ScoresInRange (x : SnowRisk.Scores) : Prop :=
  (0 ≤ x.cofSmtd ∧ x.cofSmtd ≤ 4) ∧ (0 ≤ x.cofFc ∧ x.cofFc ≤ 4) ∧
    (0 ≤ x.cofSlope ∧ x.cofSlope ≤ 4) ∧ (0 ≤ x.cofAadt ∧ x.cofAadt ≤ 4) ∧
    (0 ≤ x.cofTrbl ∧ x.cofTrbl ≤ 4) ∧ (0 ≤ x.cofCrash ∧ x.cofCrash ≤ 4) ∧
    (0 ≤ x.cofSurf ∧ x.cofSurf ≤ 4) ∧ (0 ≤ x.cofSine ∧ x.cofSine ≤ 4)

/-- All three POF sub-scores within the ordinal range 0–4. -/
def PScoresInRange (x : SnowRisk.PScores) : Prop :=
  (0 ≤ x.pofSalt ∧ x.pofSalt ≤ 4) ∧ (0 ≤ x.pofFleet ∧ x.pofFleet ≤ 4) ∧
    (0 ≤ x.pofLanes ∧ x.pofLanes ≤ 4)

/-- A fully scored persisted row, standing for the output of a previous
successful run. -/
def prevRow : Pipeline.Row :=
  { attrs := baseSeg
    scores := ⟨some 1, some 1, some 1, some 1, some 1, some 1, some 1, some 1⟩
    cofv := some 2
    pofv := some 2
    riskv := some 4 }

/-- The persisted geodatabase left by a previous successful run. -/
def prevGDB : Pipeline.GDB :=
  { snowRisk := some [prevRow], snowRiskMinor := none, snowRank := none }

/-- A V-shaped polyline with leg lengths 5 and 5 and endpoint distance 6:
its 50%-length point is the apex `(3, 4)`. -/
noncomputable def vPath : List (ℝ × ℝ) := [(0, 0), (3, 4), (6, 0)]

/-- A closed polyline of positive length 4 whose 50%-length point
coincides with its (equal) first and last points, so the `loop_distance`
denominator is zero. -/
noncomputable def loopPath : List (ℝ × ℝ) :=
  [(0, 0), (1, 0), (0, 0), (1, 0), (0, 0)]

/-- A straight two-point segment of length 4. -/
noncomputable def straightTwo : List (ℝ × ℝ) := [(0, 0), (4, 0)]

/-! ## Theorems -/

/-- C1 (amended). Classification is last-match-wins, not
first-match-wins: the scoring loop overwrites the field once per
satisfied predicate in table order, so a segment's resulting sub-score is
the score paired with the *last* satisfied predicate of the table (and
the field keeps its previous contents when no predicate matches). -/
theorem c1_rule_tables_last_match_wins (t : List Rule) (prev : Option ℤ) (s : Seg) :
    applyTable t prev s =
      ((t.reverse.find? (fun r => r.1 s)).map (fun r => r.2)).or prev := by
  induction t generalizing prev with
  | nil => simp [applyTable]
  | cons r ts ih =>
      have h1 : applyTable (r :: ts) prev s
          = applyTable ts (if r.1 s then some r.2 else prev) s := rfl
      rw [h1, ih]
      rcases hf : ts.reverse.find? (fun r => r.1 s) with _ | r'
      · rcases hc : r.1 s <;>
          simp [List.find?_append, hf, List.find?, hc, Option.or]
      · simp [List.find?_append, hf, Option.or]

/-- C1 counterexample. A segment with `SMTD_DAY = '0'` and
`SMTD_NIGHT = '1'` satisfies both the second entry (score 1) and the
third entry (score 3) of the `SnowRisk.py` bus-route table; the code
yields the later score 3, while first-match-wins would yield 1. -/
theorem c1_counterexample :
    applyTable SnowRisk.routes none { baseSeg with smtdDay := "0", smtdNight := "1" } = some 3 ∧
    specFirstMatch SnowRisk.routes { baseSeg with smtdDay := "0", smtdNight := "1" } = some 1 ∧
    (some (3 : ℤ)) ≠ some 1 := by
  refine ⟨by decide, by decide, by decide⟩

/-- C2 (amended). The `SNOW_FID = 'NORTE'` sentinel forces the seven
consequence sub-scores `COF_SMTD`, `COF_FC`, `COF_SLOPE`, `COF_AADT`,
`COF_TRBL`, `COF_CRASH`, `COF_SURF` to 0 regardless of the segment's
other attributes, and a row whose `POF_SALT`/`POF_FLEET` were never
assigned (the travel-time selections exclude `'NORTE'`) gets no `POF`
value. It does *not* force `COF_SINE` or `POF_LANES` to 0: their tables
carry no sentinel entry. -/
theorem c2_norte_forces_most_subscores (s : Seg) (h : s.snowFid = "NORTE") :
    applyTable SnowRisk.routes none s = some 0 ∧
    applyTable SnowRisk.classifications none s = some 0 ∧
    applyTable SnowRisk.slopes none s = some 0 ∧
    applyTable SnowRisk.averages none s = some 0 ∧
    applyTable SnowRisk.troubles none s = some 0 ∧
    applyTable SnowRisk.crashes none s = some 0 ∧
    applyTable SnowRisk.materials none s = some 0 ∧
    SnowRisk.pofOpt none none (applyTable SnowRisk.lanes none s) = none := by
  refine ⟨?_, ?_, ?_, ?_, ?_, ?_, ?_, ?_⟩ <;>
    simp [applyTable, SnowRisk.routes, SnowRisk.classifications, SnowRisk.slopes,
      SnowRisk.averages, SnowRisk.troubles, SnowRisk.crashes, SnowRisk.materials,
      SnowRisk.pofOpt, h]

/-- C2 witness. The amended statement evaluated on a concrete
`'NORTE'` segment. -/
theorem c2_norte_witness :
    applyTable SnowRisk.routes none { baseSeg with snowFid := "NORTE" } = some 0 ∧
    applyTable SnowRisk.classifications none { baseSeg with snowFid := "NORTE" } = some 0 ∧
    applyTable SnowRisk.slopes none { baseSeg with snowFid := "NORTE" } = some 0 ∧
    applyTable SnowRisk.averages none { baseSeg with snowFid := "NORTE" } = some 0 ∧
    applyTable SnowRisk.troubles none { baseSeg with snowFid := "NORTE" } = some 0 ∧
    applyTable SnowRisk.crashes none { baseSeg with snowFid := "NORTE" } = some 0 ∧
    applyTable SnowRisk.materials none { baseSeg with snowFid := "NORTE" } = some 0 ∧
    SnowRisk.pofOpt none none (applyTable SnowRisk.lanes none { baseSeg with snowFid := "NORTE" }) = none :=
  c2_norte_forces_most_subscores { baseSeg with snowFid := "NORTE" } rfl

/-- C2 counterexample. A `'NORTE'` segment with `SINUOSITY = 1` and
`LN_TOTAL = 2` receives `COF_SINE = 1` and `POF_LANES = 1`, not 0: the
sinuosity and lane-count tables classify the sentinel like any other
row. -/
theorem c2_counterexample :
    applyTable SnowRisk.curves none { baseSeg with snowFid := "NORTE" } = some 1 ∧
    applyTable SnowRisk.lanes none { baseSeg with snowFid := "NORTE" } = some 1 ∧
    some (1 : ℤ) ≠ some 0 := by
  refine ⟨?_, by decide, by decide⟩
  norm_num [applyTable, SnowRisk.curves, baseSeg, sinLe, sinGt]

/-- C3 (amended). The integer AADT boundary values 750, 751, 1400,
1401, 3100, 3101 select the documented buckets (1, 2, 2, 3, 3, 4), and
the two scripts' AADT tables agree; but the rule tables are *not*
exhaustive over their declared domains (see the counterexample). -/
theorem c3_aadt_boundary_buckets (s : Seg) (h : s.snowFid ≠ "NORTE") :
    (s.aadt = 750 → applyTable SnowRisk.averages none s = some 1) ∧
    (s.aadt = 751 → applyTable SnowRisk.averages none s = some 2) ∧
    (s.aadt = 1400 → applyTable SnowRisk.averages none s = some 2) ∧
    (s.aadt = 1401 → applyTable SnowRisk.averages none s = some 3) ∧
    (s.aadt = 3100 → applyTable SnowRisk.averages none s = some 3) ∧
    (s.aadt = 3101 → applyTable SnowRisk.averages none s = some 4) ∧
    applyTable SnowCOF.averages none s = applyTable SnowRisk.averages none s := by
  have hb : (s.snowFid == "NORTE") = false := beq_eq_false_iff_ne.mpr h
  have hbn : (s.snowFid != "NORTE") = true := bne_iff_ne.mpr h
  refine ⟨?_, ?_, ?_, ?_, ?_, ?_, rfl⟩ <;> intro ha <;>
    norm_num [applyTable, SnowRisk.averages, ha, hb, hbn]

/-- C3 witness. The boundary-bucket statement evaluated at a concrete
non-sentinel segment with `AADT = 750`. -/
theorem c3_aadt_boundary_witness :
    (({ baseSeg with aadt := 750 } : Seg).aadt = 750 →
      applyTable SnowRisk.averages none { baseSeg with aadt := 750 } = some 1) ∧
    (({ baseSeg with aadt := 750 } : Seg).aadt = 751 →
      applyTable SnowRisk.averages none { baseSeg with aadt := 750 } = some 2) ∧
    (({ baseSeg with aadt := 750 } : Seg).aadt = 1400 →
      applyTable SnowRisk.averages none { baseSeg with aadt := 750 } = some 2) ∧
    (({ baseSeg with aadt := 750 } : Seg).aadt = 1401 →
      applyTable SnowRisk.averages none { baseSeg with aadt := 750 } = some 3) ∧
    (({ baseSeg with aadt := 750 } : Seg).aadt = 3100 →
      applyTable SnowRisk.averages none { baseSeg with aadt := 750 } = some 3) ∧
    (({ baseSeg with aadt := 750 } : Seg).aadt = 3101 →
      applyTable SnowRisk.averages none { baseSeg with aadt := 750 } = some 4) ∧
    applyTable SnowCOF.averages none { baseSeg with aadt := 750 } =
      applyTable SnowRisk.averages none { baseSeg with aadt := 750 } :=
  c3_aadt_boundary_buckets { baseSeg with aadt := 750 } (by decide)

/-- C3 counterexample. Non-sentinel segments on which *no* rule of a
table matches: a crash count of 0 (and of 5) in `SnowCOF.py`'s crash
table, a slope of exactly 1.999 in `SnowCOF.py`'s slope table, and a
fractional AADT of 1400.5 in the shared AADT table; each leaves the
sub-score field untouched instead of selecting a bucket. -/
theorem c3_counterexample :
    baseSeg.snowFid ≠ "NORTE" ∧
    applyTable SnowCOF.crashes none baseSeg = none ∧
    applyTable SnowCOF.crashes none { baseSeg with numb1 := 5 } = none ∧
    applyTable SnowCOF.slopes none { baseSeg with snowSlope := 1.999 } = none ∧
    applyTable SnowRisk.averages none { baseSeg with aadt := 2801/2 } = none := by
  refine ⟨by decide, ?_, ?_, ?_, ?_⟩ <;>
    norm_num [applyTable, SnowCOF.crashes, SnowCOF.slopes, SnowRisk.averages, baseSeg] <;>
    decide

/-- C5 (amended). For sub-scores in the ordinal range 0–4, the COF
and POF weighted proportions lie in [0,1] and the scale factor 4 makes
the composites reach exactly 4 when every contributing sub-score is at
its maximum — but COF_SAFETY does not: its expression divides only
`COF_CRASH` by 5 (the f-string appends `/5` without parentheses) and then
divides by the total 20, so at all-maximal sub-scores it reaches
`3.36 = 84/25`, not 4. -/
theorem c5_composite_scale (sc : SnowRisk.Scores) (p : SnowRisk.PScores)
    (hsc : ScoresInRange sc) (hp : PScoresInRange p) :
    (0 ≤ (SnowRisk.safety_factor sc / 20) * 0.75 + (SnowRisk.social_factor sc / 32) * 0.25 ∧
      (SnowRisk.safety_factor sc / 20) * 0.75 + (SnowRisk.social_factor sc / 32) * 0.25 ≤ 1) ∧
    (0 ≤ (SnowRisk.mechanical_factor p / 8) * 0.5 + (SnowRisk.weather_factor p / 8) * 0.5 ∧
      (SnowRisk.mechanical_factor p / 8) * 0.5 + (SnowRisk.weather_factor p / 8) * 0.5 ≤ 1) ∧
    SnowRisk.cof ⟨4, 4, 4, 4, 4, 4, 4, 4⟩ = 4 ∧
    SnowRisk.pof ⟨4, 4, 4⟩ = 4 ∧
    SnowRisk.cof_safety ⟨4, 4, 4, 4, 4, 4, 4, 4⟩ = 84/25 := by
  obtain ⟨⟨a0, a4⟩, ⟨b0, b4⟩, ⟨c0, c4⟩, ⟨d0, d4⟩, ⟨e0, e4⟩, ⟨f0, f4⟩, ⟨g0, g4⟩, ⟨i0, i4⟩⟩ := hsc
  obtain ⟨⟨s0, s4⟩, ⟨t0, t4⟩, ⟨u0, u4⟩⟩ := hp
  have qa0 : (0 : ℚ) ≤ sc.cofSmtd := by exact_mod_cast a0
  have qa4 : (sc.cofSmtd : ℚ) ≤ 4 := by exact_mod_cast a4
  have qb0 : (0 : ℚ) ≤ sc.cofFc := by exact_mod_cast b0
  have qb4 : (sc.cofFc : ℚ) ≤ 4 := by exact_mod_cast b4
  have qc0 : (0 : ℚ) ≤ sc.cofSlope := by exact_mod_cast c0
  have qc4 : (sc.cofSlope : ℚ) ≤ 4 := by exact_mod_cast c4
  have qd0 : (0 : ℚ) ≤ sc.cofAadt := by exact_mod_cast d0
  have qd4 : (sc.cofAadt : ℚ) ≤ 4 := by exact_mod_cast d4
  have qe0 : (0 : ℚ) ≤ sc.cofTrbl := by exact_mod_cast e0
  have qe4 : (sc.cofTrbl : ℚ) ≤ 4 := by exact_mod_cast e4
  have qf0 : (0 : ℚ) ≤ sc.cofCrash := by exact_mod_cast f0
  have qf4 : (sc.cofCrash : ℚ) ≤ 4 := by exact_mod_cast f4
  have qg0 : (0 : ℚ) ≤ sc.cofSurf := by exact_mod_cast g0
  have qg4 : (sc.cofSurf : ℚ) ≤ 4 := by exact_mod_cast g4
  have qi0 : (0 : ℚ) ≤ sc.cofSine := by exact_mod_cast i0
  have qi4 : (sc.cofSine : ℚ) ≤ 4 := by exact_mod_cast i4
  have qs0 : (0 : ℚ) ≤ p.pofSalt := by exact_mod_cast s0
  have qs4 : (p.pofSalt : ℚ) ≤ 4 := by exact_mod_cast s4
  have qt0 : (0 : ℚ) ≤ p.pofFleet := by exact_mod_cast t0
  have qt4 : (p.pofFleet : ℚ) ≤ 4 := by exact_mod_cast t4
  have qu0 : (0 : ℚ) ≤ p.pofLanes := by exact_mod_cast u0
  have qu4 : (p.pofLanes : ℚ) ≤ 4 := by exact_mod_cast u4
  refine ⟨⟨?_, ?_⟩, ⟨?_, ?_⟩, ?_, ?_, ?_⟩
  · simp only [SnowRisk.safety_factor, SnowRisk.social_factor]
    linarith
  · simp only [SnowRisk.safety_factor, SnowRisk.social_factor]
    linarith
  · simp only [SnowRisk.mechanical_factor, SnowRisk.weather_factor]
    linarith
  · simp only [SnowRisk.mechanical_factor, SnowRisk.weather_factor]
    linarith
  · norm_num [SnowRisk.cof, SnowRisk.safety_factor, SnowRisk.social_factor]
  · norm_num [SnowRisk.pof, SnowRisk.mechanical_factor, SnowRisk.weather_factor]
  · norm_num [SnowRisk.cof_safety, SnowRisk.safety_factor_average]

/-- C5 witness. The amended statement evaluated at concrete
mid-range sub-score vectors. -/
theorem c5_composite_scale_witness :
    (0 ≤ (SnowRisk.safety_factor ⟨1, 1, 1, 1, 1, 1, 1, 1⟩ / 20) * 0.75 +
        (SnowRisk.social_factor ⟨1, 1, 1, 1, 1, 1, 1, 1⟩ / 32) * 0.25 ∧
      (SnowRisk.safety_factor ⟨1, 1, 1, 1, 1, 1, 1, 1⟩ / 20) * 0.75 +
        (SnowRisk.social_factor ⟨1, 1, 1, 1, 1, 1, 1, 1⟩ / 32) * 0.25 ≤ 1) ∧
    (0 ≤ (SnowRisk.mechanical_factor ⟨1, 1, 1⟩ / 8) * 0.5 +
        (SnowRisk.weather_factor ⟨1, 1, 1⟩ / 8) * 0.5 ∧
      (SnowRisk.mechanical_factor ⟨1, 1, 1⟩ / 8) * 0.5 +
        (SnowRisk.weather_factor ⟨1, 1, 1⟩ / 8) * 0.5 ≤ 1) ∧
    SnowRisk.cof ⟨4, 4, 4, 4, 4, 4, 4, 4⟩ = 4 ∧
    SnowRisk.pof ⟨4, 4, 4⟩ = 4 ∧
    SnowRisk.cof_safety ⟨4, 4, 4, 4, 4, 4, 4, 4⟩ = 84/25 :=
  c5_composite_scale ⟨1, 1, 1, 1, 1, 1, 1, 1⟩ ⟨1, 1, 1⟩
    (by refine ⟨⟨?_, ?_⟩, ⟨?_, ?_⟩, ⟨?_, ?_⟩, ⟨?_, ?_⟩, ⟨?_, ?_⟩, ⟨?_, ?_⟩, ⟨?_, ?_⟩, ⟨?_, ?_⟩⟩ <;> decide)
    (by refine ⟨⟨?_, ?_⟩, ⟨?_, ?_⟩, ⟨?_, ?_⟩⟩ <;> decide)

/-- C5 counterexample. At all-maximal sub-scores the COF_SAFETY
composite evaluates to 84/25 = 3.36, not the maximum scale value 4. -/
theorem c5_counterexample :
    SnowRisk.cof_safety ⟨4, 4, 4, 4, 4, 4, 4, 4⟩ = 84/25 ∧ (84/25 : ℚ) ≠ 4 := by
  norm_num [SnowRisk.cof_safety, SnowRisk.safety_factor_average]

/-- C6 (amended). Each composite is rounded once, at the end, to the
scaled tenth — but with Python 3's `round`, which rounds a half-way
scaled value to the *even* neighbour (banker's rounding), not away from
zero: when `cof*10` is exactly `n + 1/2`, the stored COF is `n/10` for
even `n` and `(n+1)/10` for odd `n`. -/
theorem c6_python_round_half_even (sc : SnowRisk.Scores) (n : ℤ)
    (h : SnowRisk.cof sc * 10 = n + 1/2) :
    SnowRisk.cofStored sc = (if n % 2 = 0 then (n : ℚ) else n + 1) / 10 := by
  have hhalf : ⌊(1/2 : ℚ)⌋ = 0 := by norm_num [Int.floor_eq_iff]
  have hfl : ⌊(n : ℚ) + 1/2⌋ = n := by rw [Int.floor_int_add, hhalf, add_zero]
  have hfr : Int.fract ((n : ℚ) + 1/2) = 1/2 := by
    rw [Int.fract_int_add]
    norm_num [Int.fract, hhalf]
  unfold SnowRisk.cofStored pyRound
  rw [h, hfl, hfr, if_neg (by norm_num), if_neg (by norm_num)]
  split_ifs <;> push_cast <;> ring

/-- C6 witness. Sub-scores with safety sum 5 and social sum 16 give
`cof*10 = 12.5` exactly; the stored COF is the even tenth `1.2`. -/
theorem c6_python_round_half_even_witness :
    SnowRisk.cofStored ⟨4, 1, 1, 1, 1, 1, 4, 3⟩ = 6/5 := by
  have h := c6_python_round_half_even ⟨4, 1, 1, 1, 1, 1, 4, 3⟩ 12
    (by norm_num [SnowRisk.cof, SnowRisk.safety_factor, SnowRisk.social_factor])
  rw [h]
  norm_num

/-- C6 counterexample. The half-way scaled value 12.5 is stored as
1.2 by the code's Python-3 `round`, while round-half-away-from-zero would
store 1.3; likewise `SnowCOF.py`'s `COF_AVG = round(3/6, 0)` yields 0
where half-away-from-zero yields 1. -/
theorem c6_counterexample :
    SnowRisk.cofStored ⟨4, 1, 1, 1, 1, 1, 4, 3⟩ = 6/5 ∧
    (specRoundHalfAway (SnowRisk.cof ⟨4, 1, 1, 1, 1, 1, 4, 3⟩ * 10) : ℚ) / 10 = 13/10 ∧
    (6/5 : ℚ) ≠ 13/10 ∧
    SnowCOF.COF_AVG 3 = 0 ∧
    specRoundHalfAway ((3 : ℚ) / 6) = 1 := by
  refine ⟨?_, ?_, by norm_num, ?_, ?_⟩
  · norm_num [SnowRisk.cofStored, SnowRisk.cof, SnowRisk.safety_factor,
      SnowRisk.social_factor, pyRound, Int.fract, Int.floor_eq_iff]
  · norm_num [specRoundHalfAway, SnowRisk.cof, SnowRisk.safety_factor,
      SnowRisk.social_factor, Int.floor_eq_iff]
  · norm_num [SnowCOF.COF_AVG, pyRound, Int.fract, Int.floor_eq_iff]
  · norm_num [specRoundHalfAway, Int.floor_eq_iff]

/-- The COF expression produces no value whenever `COF_SINE` is NULL,
whatever the other sub-score fields hold. -/
theorem cofOpt_eq_none_of_cofSine_none (sc : SnowRisk.ScoresOpt)
    (h : sc.cofSine = none) : SnowRisk.cofOpt sc = none := by
  obtain ⟨a, b, c, d, e, f, g, i⟩ := sc
  have hi : i = none := h
  subst hi
  cases a <;> cases b <;> cases c <;> cases d <;> cases e <;> cases f <;> cases g <;> rfl

/-- C10. A degenerate-geometry segment carries the sentinel
`SINUOSITY = 30`; no entry of the sinuosity table matches it (the highest
bucket requires `SINUOSITY <= 29`), so `COF_SINE` stays NULL, and the COF
expression — which sums `COF_SINE` with the other sub-scores — produces
no value for the row instead of using a default. -/
theorem c10_sentinel_leaves_cof_sine_unset (s : Seg) (h : s.sinuosity = some 30) :
    applyTable SnowRisk.curves none s = none ∧
    (SnowRisk.classifySeg s).cofSine = none ∧
    SnowRisk.cofOpt (SnowRisk.classifySeg s) = none := by
  have hc : applyTable SnowRisk.curves none s = none := by
    norm_num [applyTable, SnowRisk.curves, sinLe, sinGt, h]
  exact ⟨hc, hc, cofOpt_eq_none_of_cofSine_none _ hc⟩

/-- C10 witness. The statement evaluated on a concrete segment whose
sinuosity field holds the sentinel 30. -/
theorem c10_sentinel_witness :
    applyTable SnowRisk.curves none { baseSeg with sinuosity := some 30 } = none ∧
    (SnowRisk.classifySeg { baseSeg with sinuosity := some 30 }).cofSine = none ∧
    SnowRisk.cofOpt (SnowRisk.classifySeg { baseSeg with sinuosity := some 30 }) = none :=
  c10_sentinel_leaves_cof_sine_unset { baseSeg with sinuosity := some 30 } rfl

/-- The rounding `pyRound` never falls below the floor. -/
theorem floor_le_pyRound (q : ℚ) : ⌊q⌋ ≤ pyRound q := by
  unfold pyRound
  split_ifs <;> omega

/-- The rounding `pyRound` never exceeds the floor plus one. -/
theorem pyRound_le_floor_add_one (q : ℚ) : pyRound q ≤ ⌊q⌋ + 1 := by
  unfold pyRound
  split_ifs <;> omega

/-- Python 3's `round` is monotone. -/
theorem pyRound_mono {a b : ℚ} (h : a ≤ b) : pyRound a ≤ pyRound b := by
  have hf : ⌊a⌋ ≤ ⌊b⌋ := Int.floor_mono h
  rcases eq_or_lt_of_le hf with heq | hlt
  · have hfr : Int.fract a ≤ Int.fract b := by
      unfold Int.fract
      have hq : (⌊a⌋ : ℚ) = ⌊b⌋ := by exact_mod_cast heq
      linarith
    unfold pyRound
    rw [← heq]
    split_ifs <;> first | omega | (exfalso; linarith)
  · calc pyRound a ≤ ⌊a⌋ + 1 := pyRound_le_floor_add_one a
      _ ≤ ⌊b⌋ := by omega
      _ ≤ pyRound b := floor_le_pyRound b

/-- C9. For the fixed weight configuration of `SnowRisk.py`, each
stored composite (COF, COF_SAFETY, POF) is monotonically non-decreasing
in every contributing sub-score: raising sub-scores pointwise never
lowers the rounded composite. -/
theorem c9_composites_monotone :
    (∀ x y : SnowRisk.Scores, ScoresLe x y →
      SnowRisk.cofStored x ≤ SnowRisk.cofStored y ∧
        SnowRisk.cofSafetyStored x ≤ SnowRisk.cofSafetyStored y) ∧
    (∀ x y : SnowRisk.PScores, PScoresLe x y →
      SnowRisk.pofStored x ≤ SnowRisk.pofStored y) := by
  constructor
  · intro x y h
    obtain ⟨h1, h2, h3, h4, h5, h6, h7, h8⟩ := h
    have q1 : (x.cofSmtd : ℚ) ≤ y.cofSmtd := by exact_mod_cast h1
    have q2 : (x.cofFc : ℚ) ≤ y.cofFc := by exact_mod_cast h2
    have q3 : (x.cofSlope : ℚ) ≤ y.cofSlope := by exact_mod_cast h3
    have q4 : (x.cofAadt : ℚ) ≤ y.cofAadt := by exact_mod_cast h4
    have q5 : (x.cofTrbl : ℚ) ≤ y.cofTrbl := by exact_mod_cast h5
    have q6 : (x.cofCrash : ℚ) ≤ y.cofCrash := by exact_mod_cast h6
    have q7 : (x.cofSurf : ℚ) ≤ y.cofSurf := by exact_mod_cast h7
    have q8 : (x.cofSine : ℚ) ≤ y.cofSine := by exact_mod_cast h8
    have hcof : SnowRisk.cof x ≤ SnowRisk.cof y := by
      simp only [SnowRisk.cof, SnowRisk.safety_factor, SnowRisk.social_factor]
      norm_num
      linarith
    have hsaf : SnowRisk.cof_safety x ≤ SnowRisk.cof_safety y := by
      simp only [SnowRisk.cof_safety, SnowRisk.safety_factor_average]
      norm_num
      linarith
    constructor
    · have hr : pyRound (SnowRisk.cof x * 10) ≤ pyRound (SnowRisk.cof y * 10) :=
        pyRound_mono (by linarith)
      have hrq : (pyRound (SnowRisk.cof x * 10) : ℚ) ≤ pyRound (SnowRisk.cof y * 10) := by
        exact_mod_cast hr
      unfold SnowRisk.cofStored
      linarith
    · have hr : pyRound (SnowRisk.cof_safety x * 10) ≤ pyRound (SnowRisk.cof_safety y * 10) :=
        pyRound_mono (by linarith)
      have hrq : (pyRound (SnowRisk.cof_safety x * 10) : ℚ) ≤
          pyRound (SnowRisk.cof_safety y * 10) := by exact_mod_cast hr
      unfold SnowRisk.cofSafetyStored
      linarith
  · intro x y h
    obtain ⟨h1, h2, h3⟩ := h
    have q1 : (x.pofSalt : ℚ) ≤ y.pofSalt := by exact_mod_cast h1
    have q2 : (x.pofFleet : ℚ) ≤ y.pofFleet := by exact_mod_cast h2
    have q3 : (x.pofLanes : ℚ) ≤ y.pofLanes := by exact_mod_cast h3
    have hpof : SnowRisk.pof x ≤ SnowRisk.pof y := by
      simp only [SnowRisk.pof, SnowRisk.mechanical_factor, SnowRisk.weather_factor]
      norm_num
      linarith
    have hr : pyRound (SnowRisk.pof x * 10) ≤ pyRound (SnowRisk.pof y * 10) :=
      pyRound_mono (by linarith)
    have hrq : (pyRound (SnowRisk.pof x * 10) : ℚ) ≤ pyRound (SnowRisk.pof y * 10) := by
      exact_mod_cast hr
    unfold SnowRisk.pofStored
    linarith

/-- C9 witness. Monotonicity applied at a concrete pair differing
only in one sub-score. -/
theorem c9_composites_monotone_witness :
    (SnowRisk.cofStored ⟨1, 1, 1, 1, 1, 1, 1, 1⟩ ≤ SnowRisk.cofStored ⟨1, 2, 1, 1, 1, 1, 1, 1⟩ ∧
      SnowRisk.cofSafetyStored ⟨1, 1, 1, 1, 1, 1, 1, 1⟩ ≤
        SnowRisk.cofSafetyStored ⟨1, 2, 1, 1, 1, 1, 1, 1⟩) ∧
    SnowRisk.pofStored ⟨1, 1, 1⟩ ≤ SnowRisk.pofStored ⟨1, 2, 1⟩ :=
  ⟨c9_composites_monotone.1 ⟨1, 1, 1, 1, 1, 1, 1, 1⟩ ⟨1, 2, 1, 1, 1, 1, 1, 1⟩
      (by refine ⟨?_, ?_, ?_, ?_, ?_, ?_, ?_, ?_⟩ <;> decide),
    c9_composites_monotone.2 ⟨1, 1, 1⟩ ⟨1, 2, 1⟩ (by refine ⟨?_, ?_, ?_⟩ <;> decide)⟩

/-- C7 (amended). For every admissible `ORDER BY MEAN_COF DESC`
cursor over a table, `ranking` assigns exactly the ranks 1..N (no gaps,
no duplicates, one per row) and the `MEAN_COF` values are non-increasing
as the rank increases; but the rank order among *tied* rows is whatever
order the cursor returns, which the code does not constrain to input
order. -/
theorem c7_ranks_dense_descending (input cursor : List RankRow)
    (h : cursorFor input cursor) :
    (ranking cursor).map Prod.snd = List.range' 1 input.length ∧
    ((ranking cursor).map (fun p => p.1.meanCof)).Pairwise (fun a b => b ≤ a) := by
  obtain ⟨hperm, hsort⟩ := h
  constructor
  · have hlen : cursor.length = input.length := hperm.length_eq
    simp only [ranking, List.map_map]
    rw [List.range'_eq_map_range]
    rw [← hlen, ← List.enum_map_fst cursor, List.map_map]
    congr 1
    funext p
    simp [Nat.add_comm]
  · simp only [ranking, List.map_map]
    have : ((fun p => p.1.meanCof) ∘ fun p : ℕ × RankRow => (p.2, p.1 + 1)) =
        (fun r => r.meanCof) ∘ Prod.snd := rfl
    rw [this, ← List.map_map, List.enum_map_snd, List.pairwise_map]
    exact hsort

/-- C7 witness. The dense-descending statement evaluated on a
concrete two-row table with distinct metrics. -/
theorem c7_ranks_dense_descending_witness :
    (ranking [⟨3, 0⟩, ⟨1, 1⟩]).map Prod.snd = List.range' 1 ([⟨3, 0⟩, ⟨1, 1⟩] : List RankRow).length ∧
    ((ranking [⟨3, 0⟩, ⟨1, 1⟩]).map (fun p => p.1.meanCof)).Pairwise (fun a b => b ≤ a) :=
  c7_ranks_dense_descending [⟨3, 0⟩, ⟨1, 1⟩] [⟨3, 0⟩, ⟨1, 1⟩]
    ⟨List.Perm.refl _, by norm_num⟩

/-- C7 counterexample. Two rows tied at `MEAN_COF = 5`: the cursor
that returns them in reverse input order is admissible for
`ORDER BY MEAN_COF DESC`, and the resulting ranks give the later input
row (index 1) rank 1 — the assignment is not stable in input order. -/
theorem c7_counterexample :
    cursorFor [⟨5, 0⟩, ⟨5, 1⟩] [⟨5, 1⟩, ⟨5, 0⟩] ∧
    ¬ specStableTies (ranking [⟨5, 1⟩, ⟨5, 0⟩]) := by
  constructor
  · exact ⟨by decide, by norm_num⟩
  · intro hst
    have h2 := hst ⟨5, 0⟩ ⟨5, 1⟩ 2 1 (by decide) (by decide) rfl (by decide)
    omega

/-- C4 (amended). A failed run *can* leave a partial write: the
pipeline writes the persisted output in place, and the very first step
(`initialize()`) already replaces the persisted `SnowRisk` feature class
with the fresh unscored copy of the source — every derived field NULL —
before any scoring happens; a failure in any later step therefore leaves
this partially computed state, not the previous output. -/
theorem c4_first_step_replaces_output (src : List Seg) (sinOf : Seg → Option ℚ)
    (saltOf fleetOf : Seg → Option ℤ) (g : Pipeline.GDB) :
    (Pipeline.runUpTo src sinOf saltOf fleetOf 1 g).snowRisk =
      some ((src.filter (fun s => s.snowDist.isSome)).map Pipeline.freshRow) ∧
    ((Pipeline.runUpTo src sinOf saltOf fleetOf 1 g).snowRisk.getD []).all
      (fun r => r.cofv.isNone && r.pofv.isNone && r.riskv.isNone) = true := by
  constructor
  · rfl
  · simp only [Pipeline.runUpTo, Pipeline.steps, Pipeline.initCopy, List.all_eq_true,
      Pipeline.freshRow, List.take, List.foldl, Option.getD_some, List.mem_map,
      List.mem_filter, forall_exists_index, and_imp]
    rintro x s hs hd rfl
    simp

/-- C4 counterexample. Starting from a previously persisted scored
output, the state after a run that fails right after `initialize()`
differs both from the previous output (it was not left intact) and from
the full run's result — a partial write is observable. -/
theorem c4_counterexample :
    Pipeline.runUpTo [baseSeg] (fun _ => some 1) (fun _ => some 1) (fun _ => some 1)
        1 prevGDB ≠ prevGDB ∧
    Pipeline.runUpTo [baseSeg] (fun _ => some 1) (fun _ => some 1) (fun _ => some 1)
        1 prevGDB ≠
      Pipeline.runUpTo [baseSeg] (fun _ => some 1) (fun _ => some 1) (fun _ => some 1)
        5 prevGDB := by
  constructor
  · intro h
    have h2 := congrArg (fun gg => gg.snowRisk) h
    simp [Pipeline.runUpTo, Pipeline.steps, Pipeline.initCopy, Pipeline.freshRow,
      prevGDB, prevRow, baseSeg] at h2
  · intro h
    have h2 := congrArg (fun gg => gg.snowRank) h
    simp [Pipeline.runUpTo, Pipeline.steps, Pipeline.initCopy, Pipeline.consequenceStep,
      Pipeline.probabilityStep, Pipeline.riskMinorStep, Pipeline.riskRankStep,
      prevGDB] at h2

/-- Evaluate a square root at a perfect square. -/
theorem sqrt_eq_of_sq {x c : ℝ} (hc : 0 ≤ c) (h : x = c ^ 2) : Real.sqrt x = c := by
  rw [h, Real.sqrt_sq hc]

/-- First leg of `vPath`. -/
theorem vPath_leg1 : ptDist ((0 : ℝ), (0 : ℝ)) (3, 4) = 5 := by
  unfold ptDist
  exact sqrt_eq_of_sq (by norm_num) (by norm_num)

/-- Second leg of `vPath`. -/
theorem vPath_leg2 : ptDist ((3 : ℝ), (4 : ℝ)) (6, 0) = 5 := by
  unfold ptDist
  exact sqrt_eq_of_sq (by norm_num) (by norm_num)

/-- Total length of `vPath`. -/
theorem vPath_length : shapeLength vPath = 10 := by
  simp only [vPath, shapeLength]
  rw [vPath_leg1, vPath_leg2]
  norm_num

/-- The 50%-length point of `vPath` is its apex. -/
theorem vPath_mid : midPoint vPath = (3, 4) := by
  unfold midPoint
  rw [vPath_length, show (10 : ℝ) / 2 = 5 by norm_num]
  simp only [vPath, positionAlong]
  rw [vPath_leg1, if_pos (by norm_num)]
  norm_num

/-- The `loop_distance` denominator of `vPath` is the sum of the two leg
distances, 10. -/
theorem vPath_denom : loopDenom vPath = 10 := by
  unfold loopDenom
  rw [vPath_mid]
  rw [show firstPoint vPath = ((0 : ℝ), (0 : ℝ)) from rfl,
    show lastPoint vPath = ((6 : ℝ), (0 : ℝ)) from rfl]
  rw [vPath_leg1, vPath_leg2]
  norm_num

/-- The straight-line endpoint distance of `vPath` is 6. -/
theorem vPath_endpoint : ptDist (firstPoint vPath) (lastPoint vPath) = 6 := by
  rw [show firstPoint vPath = ((0 : ℝ), (0 : ℝ)) from rfl,
    show lastPoint vPath = ((6 : ℝ), (0 : ℝ)) from rfl]
  unfold ptDist
  exact sqrt_eq_of_sq (by norm_num) (by norm_num)

/-- The two `loop_distance` half-distances of a two-point segment each
equal half the segment length, so the denominator is the full length. -/
theorem loopDenom_two_point (p q : ℝ × ℝ) (h : ptDist p q ≠ 0) :
    loopDenom [p, q] = ptDist p q := by
  have hnn : (0 : ℝ) ≤ ptDist p q := Real.sqrt_nonneg _
  have hlen : shapeLength [p, q] = ptDist p q := by
    simp [shapeLength]
  have hmid : midPoint [p, q] = (p.1 + 1 / 2 * (q.1 - p.1), p.2 + 1 / 2 * (q.2 - p.2)) := by
    unfold midPoint
    rw [hlen]
    simp only [positionAlong]
    rw [if_pos ⟨by linarith, h⟩]
    have hdd : ptDist p q / 2 / ptDist p q = 1 / 2 := by
      field_simp
      ring
    rw [hdd]
  have hsq : (0 : ℝ) ≤ (p.1 - q.1) ^ 2 + (p.2 - q.2) ^ 2 := by positivity
  have h1 : ptDist p (midPoint [p, q]) = ptDist p q * (1 / 2) := by
    rw [hmid]
    unfold ptDist
    rw [show (p.1 - (p.1 + 1 / 2 * (q.1 - p.1))) ^ 2 +
          (p.2 - (p.2 + 1 / 2 * (q.2 - p.2))) ^ 2 =
        ((p.1 - q.1) ^ 2 + (p.2 - q.2) ^ 2) * (1 / 2) ^ 2 by ring]
    rw [Real.sqrt_mul hsq, Real.sqrt_sq (by norm_num)]
  have h2 : ptDist (midPoint [p, q]) q = ptDist p q * (1 / 2) := by
    rw [hmid]
    unfold ptDist
    rw [show (p.1 + 1 / 2 * (q.1 - p.1) - q.1) ^ 2 +
          (p.2 + 1 / 2 * (q.2 - p.2) - q.2) ^ 2 =
        ((p.1 - q.1) ^ 2 + (p.2 - q.2) ^ 2) * (1 / 2) ^ 2 by ring]
    rw [Real.sqrt_mul hsq, Real.sqrt_sq (by norm_num)]
  unfold loopDenom
  rw [show firstPoint [p, q] = p from rfl, show lastPoint [p, q] = q from rfl]
  rw [h1, h2]
  ring

/-- Every leg of `loopPath` has length 1. -/
theorem loopPath_leg1 : ptDist ((0 : ℝ), (0 : ℝ)) (1, 0) = 1 := by
  unfold ptDist
  exact sqrt_eq_of_sq (by norm_num) (by norm_num)

/-- Every leg of `loopPath` has length 1 (return leg). -/
theorem loopPath_leg2 : ptDist ((1 : ℝ), (0 : ℝ)) (0, 0) = 1 := by
  unfold ptDist
  exact sqrt_eq_of_sq (by norm_num) (by norm_num)

/-- Total length of `loopPath`. -/
theorem loopPath_length : shapeLength loopPath = 4 := by
  simp only [loopPath, shapeLength]
  rw [loopPath_leg1, loopPath_leg2]
  norm_num

/-- The 50%-length point of `loopPath` is the origin — equal to both its
first and its last point. -/
theorem loopPath_mid : midPoint loopPath = (0, 0) := by
  unfold midPoint
  rw [loopPath_length, show (4 : ℝ) / 2 = 2 by norm_num]
  simp only [loopPath, positionAlong]
  rw [loopPath_leg1, if_neg (by norm_num)]
  rw [show (2 : ℝ) - 1 = 1 by norm_num]
  rw [loopPath_leg2, if_pos (by norm_num)]
  norm_num

/-- The `loop_distance` denominator of `loopPath` is zero. -/
theorem loopPath_denom : loopDenom loopPath = 0 := by
  unfold loopDenom
  rw [loopPath_mid]
  rw [show firstPoint loopPath = ((0 : ℝ), (0 : ℝ)) from rfl,
    show lastPoint loopPath = ((0 : ℝ), (0 : ℝ)) from rfl]
  have h0 : ptDist ((0 : ℝ), (0 : ℝ)) ((0 : ℝ), (0 : ℝ)) = 0 := by
    unfold ptDist
    norm_num
  rw [h0]
  norm_num

/-- Length of `straightTwo`. -/
theorem straightTwo_dist : ptDist ((0 : ℝ), (0 : ℝ)) (4, 0) = 4 := by
  unfold ptDist
  exact sqrt_eq_of_sq (by norm_num) (by norm_num)

/-- C8 (amended). The `loop_distance` split formula — total length
over the sum of the two halves' straight-line distances to the
50%-length point — is the *only* sinuosity formula: it is applied to
every positive-length shape, not as a fallback; the sentinel 30 is
written exactly when that denominator is zero (the expression raises and
leaves NULL); and a straight two-point segment still gets sinuosity
exactly 1. -/
theorem c8_split_formula_always (p q : ℝ × ℝ) (path : List (ℝ × ℝ))
    (hpq : ptDist p q ≠ 0) (hpos : 0 < shapeLength path) :
    sinuosityField [p, q] = some 1 ∧
    (loopDenom path = 0 → sinuosityField path = some 30) ∧
    (loopDenom path ≠ 0 →
      sinuosityField path = some (shapeLength path / loopDenom path)) := by
  refine ⟨?_, ?_, ?_⟩
  · have hlen : shapeLength [p, q] = ptDist p q := by simp [shapeLength]
    have hpos2 : 0 < shapeLength [p, q] := by
      rw [hlen]
      exact lt_of_le_of_ne (Real.sqrt_nonneg _) (Ne.symm hpq)
    unfold sinuosityField calcSinuosity
    rw [if_pos hpos2, loopDenom_two_point p q hpq, if_neg hpq, hlen,
      div_self hpq]
  · intro hd
    unfold sinuosityField calcSinuosity
    rw [if_pos hpos, if_pos hd]
  · intro hd
    unfold sinuosityField calcSinuosity
    rw [if_pos hpos, if_neg hd]

/-- C8 witness. The amended statement at the straight two-point
segment and the closed `loopPath`: the straight segment gets sinuosity 1,
and the zero-denominator loop gets the sentinel 30. -/
theorem c8_split_formula_witness :
    sinuosityField [((0 : ℝ), (0 : ℝ)), (4, 0)] = some 1 ∧
    (loopDenom loopPath = 0 → sinuosityField loopPath = some 30) ∧
    (loopDenom loopPath ≠ 0 →
      sinuosityField loopPath = some (shapeLength loopPath / loopDenom loopPath)) :=
  c8_split_formula_always ((0 : ℝ), (0 : ℝ)) (4, 0) loopPath
    (by rw [straightTwo_dist]; norm_num)
    (by rw [loopPath_length]; norm_num)

/-- C8 counterexample. `vPath` has positive length 10 and a nonzero
straight-line endpoint distance 6, so by the claim its sinuosity should
be `10/6 = 5/3`; the code applies the split formula anyway (denominator
`5 + 5 = 10`) and stores sinuosity 1. -/
theorem c8_counterexample :
    ptDist (firstPoint vPath) (lastPoint vPath) = 6 ∧
    shapeLength vPath = 10 ∧
    sinuosityField vPath = some 1 ∧
    specPrimarySinuosity vPath = 5/3 ∧
    (1 : ℝ) ≠ 5/3 := by
  have hden10 : loopDenom vPath ≠ 0 := by rw [vPath_denom]; norm_num
  refine ⟨vPath_endpoint, vPath_length, ?_, ?_, by norm_num⟩
  · unfold sinuosityField calcSinuosity
    rw [if_pos (by rw [vPath_length]; norm_num), if_neg hden10, vPath_length,
      vPath_denom]
    norm_num
  · unfold specPrimarySinuosity
    rw [vPath_endpoint, vPath_length]
    norm_num

end SnowVerify
